import Mathlib

/-! Shallow embedding of the PrivateGPT bridge server (main.go): the payload
    construction performed by the chat handler, the file-list deduplication of
    the list-files handler, the bulk-delete accounting of the delete-all
    handler, and the input validation of the upload handler. -/

/-- JSON values as produced by Go encoding/json for the payloads below.
    Numbers are modelled as rationals: the bridge only copies numeric request
    fields (Go ints and float64s) into payloads, it never computes with them. -/
inductive JValue where
  | jnull : JValue
  | jbool : Bool → JValue
  | jnum : Rat → JValue
  | jstr : String → JValue
  | jarr : List JValue → JValue
  | jobj : List (String × JValue) → JValue

/-- Key lookup in an encoded JSON object (field lists below have distinct keys,
    so first-match lookup is the JSON object lookup). -/
def objLookup (k : String) : List (String × JValue) → Option JValue
  | [] => none
  | (k', v) :: rest => if k' = k then some v else objLookup k rest

/-- Lookup of a top-level key of a JSON value; `none` on non-objects. -/
def jLookup (k : String) (v : JValue) : Option JValue :=
  match v with
  | .jobj fields => objLookup k fields
  | _ => none

/-- Struct `Message` from main.go: one chat turn. -/
structure Message where
  role : String
  content : String
deriving DecidableEq

/-- Struct `ContextFilter` from main.go. In Go the payload fields hold a *pointer* to
    this struct; the pointer is modelled as `Option ContextFilter` at each use
    site. -/
structure ContextFilter where
  docsIds : List String
deriving DecidableEq

/-- Struct `ChatRequest` from main.go: the /v1/chat/completions payload. -/
structure ChatRequest where
  model : String
  messages : List Message
  useContext : Bool
  contextFilter : Option ContextFilter
  includeSources : Bool
  stream : Bool
  maxTokens : Int
  temperature : Rat
deriving DecidableEq

/-- Struct `CompletionRequest` from main.go: the /v1/completions payload.
    Note: it has no Stream field. -/
structure CompletionRequest where
  model : String
  prompt : String
  useContext : Bool
  contextFilter : Option ContextFilter
  includeSources : Bool
  maxTokens : Int
  temperature : Rat
deriving DecidableEq

/-- Struct `ChunksRequest` from main.go: the /v1/chunks payload.
    Note: it has no Stream field. -/
structure ChunksRequest where
  text : String
  contextFilter : Option ContextFilter
  limit : Int
  prevNextChunks : Int
deriving DecidableEq

/-- Struct `BridgeConfig` from main.go. -/
structure BridgeConfig where
  mode : String
  useContext : Bool
  selectedDocs : List String
  maxTokens : Int
  temperature : Rat
deriving DecidableEq

/-- The anonymous `reqData` struct decoded by `chatHandler` in main.go. -/
structure ChatRequestBody where
  message : String
  config : BridgeConfig
  systemPrompt : String
  history : List Message
deriving DecidableEq

/-- Go encoding/json of `ContextFilter`: `docs_ids` is tagged omitempty, so it
    is dropped when the slice is empty. -/
def encodeContextFilter (cf : ContextFilter) : JValue :=
  .jobj (if cf.docsIds.isEmpty then [] else
    [("docs_ids", .jarr (cf.docsIds.map JValue.jstr))])

/-- Go encoding/json of `Message`. -/
def encodeMessage (m : Message) : JValue :=
  .jobj [("role", .jstr m.role), ("content", .jstr m.content)]

/-- Go encoding/json of `ChatRequest`, with the struct's field order and its
    omitempty tags: `context_filter` dropped when the pointer is nil,
    `max_tokens` and `temperature` dropped when zero. -/
def encodeChatRequest (r : ChatRequest) : JValue :=
  .jobj ([("model", .jstr r.model),
          ("messages", .jarr (r.messages.map encodeMessage)),
          ("use_context", .jbool r.useContext)]
    ++ (match r.contextFilter with
        | some cf => [("context_filter", encodeContextFilter cf)]
        | none => [])
    ++ [("include_sources", .jbool r.includeSources),
        ("stream", .jbool r.stream)]
    ++ (if r.maxTokens = 0 then [] else [("max_tokens", .jnum r.maxTokens)])
    ++ (if r.temperature = 0 then [] else [("temperature", .jnum r.temperature)]))

/-- Go encoding/json of `CompletionRequest` (no `stream` key exists). -/
def encodeCompletionRequest (r : CompletionRequest) : JValue :=
  .jobj ([("model", .jstr r.model),
          ("prompt", .jstr r.prompt),
          ("use_context", .jbool r.useContext)]
    ++ (match r.contextFilter with
        | some cf => [("context_filter", encodeContextFilter cf)]
        | none => [])
    ++ [("include_sources", .jbool r.includeSources)]
    ++ (if r.maxTokens = 0 then [] else [("max_tokens", .jnum r.maxTokens)])
    ++ (if r.temperature = 0 then [] else [("temperature", .jnum r.temperature)]))

/-- Go encoding/json of `ChunksRequest` (no `stream` key exists; `limit` and
    `prev_next_chunks` are omitempty ints, dropped when zero). -/
def encodeChunksRequest (r : ChunksRequest) : JValue :=
  .jobj ([("text", .jstr r.text)]
    ++ (match r.contextFilter with
        | some cf => [("context_filter", encodeContextFilter cf)]
        | none => [])
    ++ (if r.limit = 0 then [] else [("limit", .jnum r.limit)])
    ++ (if r.prevNextChunks = 0 then [] else
        [("prev_next_chunks", .jnum r.prevNextChunks)]))

/-- The `payload interface{}` variable of `chatHandler`: one of the three
    payload struct types. -/
inductive Payload where
  | chat : ChatRequest → Payload
  | completion : CompletionRequest → Payload
  | chunks : ChunksRequest → Payload
deriving DecidableEq

/-- JSON marshalling of the `payload interface{}` value. -/
def encodePayload : Payload → JValue
  | .chat r => encodeChatRequest r
  | .completion r => encodeCompletionRequest r
  | .chunks r => encodeChunksRequest r

/-- The endpoint/payload selection of `chatHandler` in main.go (the switch on
    `reqData.Config.Mode`); the network send that follows is not part of the
    translation. -/
def chatHandler (reqData : ChatRequestBody) : String × Payload :=
  if reqData.config.mode = "search" then
    ("/v1/chunks", .chunks
      { text := reqData.message
        contextFilter :=
          if 0 < reqData.config.selectedDocs.length then
            some ⟨reqData.config.selectedDocs⟩
          else none
        limit := 10
        prevNextChunks := 1 })
  else if reqData.config.mode = "basic" then
    let messages : List Message :=
      if reqData.systemPrompt ≠ "" then
        [⟨"system", reqData.systemPrompt⟩]
      else []
    let messages :=
      if reqData.history.length > 4 then
        messages ++ reqData.history.drop (reqData.history.length - 4)
      else
        messages ++ reqData.history
    let messages := messages ++ [⟨"user", reqData.message⟩]
    ("/v1/chat/completions", .chat
      { model := "private-gpt"
        messages := messages
        useContext := false
        contextFilter := none
        includeSources := false
        stream := false
        maxTokens := reqData.config.maxTokens
        temperature := reqData.config.temperature })
  else if reqData.config.mode = "summarize" then
    ("/v1/completions", .completion
      { model := "private-gpt"
        prompt := "Please provide a comprehensive summary of the following content: "
          ++ reqData.message
        useContext := true
        contextFilter :=
          if 0 < reqData.config.selectedDocs.length then
            some ⟨reqData.config.selectedDocs⟩
          else none
        includeSources := true
        maxTokens := reqData.config.maxTokens
        temperature := reqData.config.temperature })
  else
    let messages : List Message :=
      if reqData.systemPrompt ≠ "" then
        [⟨"system", reqData.systemPrompt⟩]
      else []
    let messages := messages ++ reqData.history
    let messages := messages ++ [⟨"user", reqData.message⟩]
    ("/v1/chat/completions", .chat
      { model := "private-gpt"
        messages := messages
        useContext := reqData.config.useContext
        contextFilter :=
          if reqData.config.useContext ∧ 0 < reqData.config.selectedDocs.length then
            some ⟨reqData.config.selectedDocs⟩
          else none
        includeSources := true
        stream := false
        maxTokens := reqData.config.maxTokens
        temperature := reqData.config.temperature })

/-- A value of a `doc_metadata` map entry (Go `map[string]interface{}`). The
    bridge only ever type-asserts these values to `string`; every non-string
    JSON value is observationally identical to the handlers, so they are
    collapsed into `other`. -/
inductive MetaValue where
  | str : String → MetaValue
  | other : MetaValue
deriving DecidableEq

/-- Struct `FileInfo` from main.go: one record of the upstream ingest list.
    `docMetadata` is `none` when the Go map is nil. Go map keys are unique;
    the association list is read with first-match lookup. -/
structure FileInfo where
  docID : String
  docMetadata : Option (List (String × MetaValue))
deriving DecidableEq

/-- First-match lookup in a metadata map. -/
def lookupMeta (k : String) : List (String × MetaValue) → Option MetaValue
  | [] => none
  | (k', v) :: rest => if k' = k then some v else lookupMeta k rest

/-- The display-filename computation repeated verbatim in `listFilesHandler`
    and `deleteAllFilesHandler`: start from "Unknown", overwrite with
    `DocMetadata["file_name"]` when the map is non-nil and the entry is a
    string. -/
def fileDisplayName (file : FileInfo) : String :=
  match file.docMetadata with
  | none => "Unknown"
  | some m =>
    match lookupMeta "file_name" m with
    | some (.str name) => name
    | _ => "Unknown"

/-- Lookup in the `fileMap` of `listFilesHandler` (a Go `map[string]FileInfo`,
    modelled as an association list with unique keys). -/
def alistFind (k : String) : List (String × FileInfo) → Option FileInfo
  | [] => none
  | (k', v) :: rest => if k' = k then some v else alistFind k rest

/-- Insert-or-replace in the `fileMap` of `listFilesHandler`. -/
def alistInsert (k : String) (v : FileInfo) :
    List (String × FileInfo) → List (String × FileInfo)
  | [] => [(k, v)]
  | (k', v') :: rest =>
    if k' = k then (k, v) :: rest else (k', v') :: alistInsert k v rest

/-- One iteration of the deduplication loop of `listFilesHandler`: key by
    display filename; on collision keep the record whose `doc_id` is
    lexicographically larger. -/
def dedupStep (fileMap : List (String × FileInfo)) (file : FileInfo) :
    List (String × FileInfo) :=
  match alistFind (fileDisplayName file) fileMap with
  | some existing =>
    if existing.docID < file.docID then
      alistInsert (fileDisplayName file) file fileMap
    else fileMap
  | none => alistInsert (fileDisplayName file) file fileMap

/-- The `fileMap` built by `listFilesHandler` from the upstream list
    `listResp.Data`. -/
def dedupFiles (files : List FileInfo) : List (String × FileInfo) :=
  files.foldl dedupStep []

/-- Outcome of one per-file delete attempt inside `deleteAllFilesHandler`:
    `http.NewRequest` failure (no upstream call made), `client.Do` failure
    (call attempted but failed on the network), or an upstream status code. -/
inductive DeleteOutcome where
  | reqError : DeleteOutcome
  | netError : DeleteOutcome
  | status : Nat → DeleteOutcome
deriving DecidableEq

/-- The loop state of `deleteAllFilesHandler`: the two counters, the
    `failedFiles` slice, and (for the no-upstream-call claims) the number of
    delete calls handed to `client.Do`. -/
structure DeleteLoopState where
  deletedCount : Nat
  failedCount : Nat
  failedFiles : List String
  deleteCalls : Nat
deriving DecidableEq

/-- One iteration of the delete loop of `deleteAllFilesHandler`. -/
def deleteLoopStep (s : DeleteLoopState) (p : FileInfo × DeleteOutcome) :
    DeleteLoopState :=
  match p.2 with
  | .reqError =>
    { s with failedCount := s.failedCount + 1
             failedFiles := s.failedFiles ++ [fileDisplayName p.1] }
  | .netError =>
    { s with failedCount := s.failedCount + 1
             failedFiles := s.failedFiles ++ [fileDisplayName p.1]
             deleteCalls := s.deleteCalls + 1 }
  | .status code =>
    if code = 200 then
      { s with deletedCount := s.deletedCount + 1
               deleteCalls := s.deleteCalls + 1 }
    else
      { s with failedCount := s.failedCount + 1
               failedFiles := s.failedFiles ++ [fileDisplayName p.1]
               deleteCalls := s.deleteCalls + 1 }

/-- The delete loop of `deleteAllFilesHandler` over the upstream list, with
    one externally-determined outcome per record (paired by position). -/
def deleteAllLoop (files : List FileInfo) (outcomes : List DeleteOutcome) :
    DeleteLoopState :=
  (files.zip outcomes).foldl deleteLoopStep ⟨0, 0, [], 0⟩

/-- Handler `deleteAllFilesHandler` after a successful list fetch: the JSON response
    body and the number of upstream delete calls issued. The empty-list early
    return carries no `total_files` key; in the non-empty case `failed_files`
    is added only when some delete failed. Go serializes map keys in sorted
    order; key order is irrelevant to `jLookup`. -/
def deleteAllFilesRun (files : List FileInfo) (outcomes : List DeleteOutcome) :
    JValue × Nat :=
  if files.length = 0 then
    (.jobj [("deleted_count", .jnum 0),
            ("failed_count", .jnum 0),
            ("message", .jstr "No files to delete"),
            ("success", .jbool true)], 0)
  else
    (.jobj ([("deleted_count", .jnum (deleteAllLoop files outcomes).deletedCount),
             ("failed_count", .jnum (deleteAllLoop files outcomes).failedCount)]
      ++ (if 0 < (deleteAllLoop files outcomes).failedFiles.length then
            [("failed_files", .jarr
              ((deleteAllLoop files outcomes).failedFiles.map JValue.jstr))]
          else [])
      ++ [("message", .jstr ("Bulk delete completed: "
            ++ toString (deleteAllLoop files outcomes).deletedCount ++ " deleted, "
            ++ toString (deleteAllLoop files outcomes).failedCount ++ " failed")),
          ("success", .jbool true),
          ("total_files", .jnum files.length)]),
     (deleteAllLoop files outcomes).deleteCalls)

/-- Constant `MAX_FILE_SIZE` from main.go (50 << 20). -/
def MAX_FILE_SIZE : Nat := 50 <<< 20

/-- The `allowedExts` set of `uploadHandler` (a Go `map[string]bool`). -/
def allowedExts : List String :=
  [".pdf", ".docx", ".doc", ".txt", ".md", ".html", ".csv", ".json",
   ".pptx", ".ppt", ".epub", ".ipynb"]

/-- Go `filepath.Ext`: scan backwards through the final path element; return
    the suffix from the last dot, or "" when no dot occurs before a path
    separator. `rev` is the not-yet-scanned part reversed, `acc` the scanned
    suffix in original order. -/
def extFromRev : List Char → List Char → String
  | [], _ => ""
  | c :: rest, acc =>
    if c = '/' then ""
    else if c = '.' then String.mk (c :: acc)
    else extFromRev rest (c :: acc)

/-- Go `filepath.Ext` on a filename. -/
def filepathExt (path : String) : String :=
  extFromRev path.data.reverse []

/-- Go `strings.ToLower`. The allowed-extension keys are pure ASCII, and on
    ASCII Go's Unicode lowering agrees with `Char.toLower`; no non-ASCII
    character lowers to a pure-ASCII allowed extension. -/
def stringToLower (s : String) : String :=
  String.mk (s.data.map Char.toLower)

/-- The inputs `uploadHandler` branches on. `parseFormOk` is the success of
    `r.ParseMultipartForm(MAX_FILE_SIZE)`: per Go's documented semantics its
    argument is a memory threshold for parsed file parts (the excess is
    buffered to temporary files), not a bound on the request body size, so a
    well-formed oversized multipart body still parses successfully.
    `headerSize` is `header.Size`, which the handler only logs. `buildOk`
    covers `CreateFormFile`/`io.Copy`/`http.NewRequest`, all before the
    upstream call; `upstreamOk` is the success of `client.Do`. -/
structure UploadRequest where
  method : String
  parseFormOk : Bool
  fileProvided : Bool
  filename : String
  headerSize : Nat
  buildOk : Bool
  upstreamOk : Bool
deriving DecidableEq

/-- The observable outcome of `uploadHandler`. -/
inductive UploadOutcome where
  | methodNotAllowed : UploadOutcome
  | badRequest : String → UploadOutcome
  | internalError : UploadOutcome
  | badGateway : UploadOutcome
  | forwarded : UploadOutcome
deriving DecidableEq

/-- Handler `uploadHandler` from main.go: the outcome together with whether an
    upstream ingest call was issued (`client.Do` reached). The file's size is
    never consulted after parsing. -/
def uploadHandler (r : UploadRequest) : UploadOutcome × Bool :=
  if r.method ≠ "POST" then (.methodNotAllowed, false)
  else if !r.parseFormOk then (.badRequest "File too large or invalid", false)
  else if !r.fileProvided then (.badRequest "No file provided", false)
  else if !(allowedExts.contains (stringToLower (filepathExt r.filename))) then
    (.badRequest "File type not supported", false)
  else if !r.buildOk then (.internalError, false)
  else if !r.upstreamOk then (.badGateway, true)
  else (.forwarded, true)

/-! Concrete inputs used by witnesses and counterexamples. -/

/-- A five-turn history (more than the basic-mode cutoff of 4). -/
def exampleHistory : List Message :=
  [⟨"user", "q1"⟩, ⟨"assistant", "a1"⟩, ⟨"user", "q2"⟩,
   ⟨"assistant", "a2"⟩, ⟨"user", "q3"⟩]

/-- A search-mode request. -/
def exampleSearchReq : ChatRequestBody :=
  ⟨"find things", ⟨"search", true, ["d1"], 0, 0⟩, "sys prompt", exampleHistory⟩

/-- A second search-mode request agreeing with `exampleSearchReq` on message
    and selected docs but differing in history, system prompt and the other
    config fields. -/
def exampleSearchReq2 : ChatRequestBody :=
  ⟨"find things", ⟨"search", false, ["d1"], 7, 1⟩, "other prompt", []⟩

/-- A basic-mode request with context config set and a long history. -/
def exampleBasicReq : ChatRequestBody :=
  ⟨"hello", ⟨"basic", true, ["d1", "d2"], 0, 0⟩, "sys", exampleHistory⟩

/-- A rag-mode request. -/
def exampleRagReq : ChatRequestBody :=
  ⟨"hello", ⟨"rag", true, ["d1"], 0, 0⟩, "sys", exampleHistory⟩

/-- Two file records sharing the filename "x", with doc_ids "a" < "b". -/
def exampleFileA : FileInfo := ⟨"a", some [("file_name", .str "x")]⟩

/-- See `exampleFileA`. -/
def exampleFileB : FileInfo := ⟨"b", some [("file_name", .str "x")]⟩

/-- A five-record upstream list for the delete-all witnesses. -/
def exampleFiles : List FileInfo :=
  [⟨"1", none⟩, ⟨"2", some [("file_name", .str "two")]⟩, ⟨"3", none⟩,
   ⟨"4", some [("file_name", .str "four")]⟩, ⟨"5", none⟩]

/-- Outcomes for `exampleFiles`: three successes, one non-200 status and one
    network error. -/
def exampleOutcomes : List DeleteOutcome :=
  [.status 200, .status 404, .status 200, .netError, .status 200]

/-- A well-formed 60 MiB multipart upload of an allowed .pdf file. -/
def exampleBigUpload : UploadRequest :=
  { method := "POST", parseFormOk := true, fileProvided := true,
    filename := "report.pdf", headerSize := 60 * 1024 * 1024,
    buildOk := true, upstreamOk := true }

/-- A small upload with a disallowed extension. -/
def exampleExeUpload : UploadRequest :=
  { method := "POST", parseFormOk := true, fileProvided := true,
    filename := "malware.exe", headerSize := 1024,
    buildOk := true, upstreamOk := true }

/-- A per-file outcome counts as a success exactly when the upstream answered
    the delete with status 200. -/
def isDeleteSuccess : DeleteOutcome → Bool
  | .status code => decide (code = 200)
  | _ => false

/-- A per-file outcome counts as a failure in the three remaining cases:
    request-construction error, network error, non-200 status. -/
def isDeleteFailure : DeleteOutcome → Bool
  | .reqError => true
  | .netError => true
  | .status code => decide (code ≠ 200)

/-- An upstream delete call is issued (`client.Do` reached) unless
    `http.NewRequest` itself failed. -/
def issuesDeleteCall : DeleteOutcome → Bool
  | .reqError => false
  | _ => true

/-- One step of an order-insensitive restatement of the dedup loop, tracking
    only the slot of key `k`: among the records whose display filename is `k`,
    keep the one with the larger doc_id (first seen wins ties). -/
def bestForStep (k : String) (acc : Option FileInfo) (file : FileInfo) :
    Option FileInfo :=
  if fileDisplayName file = k then
    match acc with
    | none => some file
    | some e => if e.docID < file.docID then some file else some e
  else acc

/-- The record retained in slot `k` when scanning `files` left to right. -/
def bestFor (k : String) (files : List FileInfo) : Option FileInfo :=
  files.foldl (bestForStep k) none

/-! Lookup lemmas for the payload encoders. -/

lemma objLookup_append (k : String) (l1 l2 : List (String × JValue)) :
    objLookup k (l1 ++ l2) =
      match objLookup k l1 with
      | some v => some v
      | none => objLookup k l2 := by
  induction l1 with
  | nil => simp [objLookup]
  | cons p rest ih =>
    obtain ⟨k', v⟩ := p
    by_cases hk : k' = k <;> simp [objLookup, hk, ih]

lemma encodeChatRequest_use_context (r : ChatRequest) :
    jLookup "use_context" (encodeChatRequest r) = some (.jbool r.useContext) := by
  unfold encodeChatRequest jLookup
  cases r.contextFilter <;>
    by_cases hmt : r.maxTokens = 0 <;> by_cases ht : r.temperature = 0 <;>
      simp [hmt, ht, objLookup]

lemma encodeChatRequest_include_sources (r : ChatRequest) :
    jLookup "include_sources" (encodeChatRequest r) =
      some (.jbool r.includeSources) := by
  unfold encodeChatRequest jLookup
  cases r.contextFilter <;>
    by_cases hmt : r.maxTokens = 0 <;> by_cases ht : r.temperature = 0 <;>
      simp [hmt, ht, objLookup]

lemma encodeChatRequest_stream (r : ChatRequest) :
    jLookup "stream" (encodeChatRequest r) = some (.jbool r.stream) := by
  unfold encodeChatRequest jLookup
  cases r.contextFilter <;>
    by_cases hmt : r.maxTokens = 0 <;> by_cases ht : r.temperature = 0 <;>
      simp [hmt, ht, objLookup]

lemma encodeChatRequest_context_filter (r : ChatRequest) :
    jLookup "context_filter" (encodeChatRequest r) =
      r.contextFilter.map encodeContextFilter := by
  unfold encodeChatRequest jLookup
  cases r.contextFilter <;>
    by_cases hmt : r.maxTokens = 0 <;> by_cases ht : r.temperature = 0 <;>
      simp [hmt, ht, objLookup]

lemma encodeChunksRequest_stream (r : ChunksRequest) :
    jLookup "stream" (encodeChunksRequest r) = none := by
  unfold encodeChunksRequest jLookup
  cases r.contextFilter <;>
    by_cases hl : r.limit = 0 <;> by_cases hp : r.prevNextChunks = 0 <;>
      simp [hl, hp, objLookup]

lemma encodeCompletionRequest_stream (r : CompletionRequest) :
    jLookup "stream" (encodeCompletionRequest r) = none := by
  unfold encodeCompletionRequest jLookup
  cases r.contextFilter <;>
    by_cases hmt : r.maxTokens = 0 <;> by_cases ht : r.temperature = 0 <;>
      simp [hmt, ht, objLookup]

/-! Branch lemmas for the chat handler's mode switch. -/

lemma chatHandler_search (req : ChatRequestBody)
    (h : req.config.mode = "search") :
    chatHandler req = ("/v1/chunks", .chunks
      { text := req.message
        contextFilter :=
          if 0 < req.config.selectedDocs.length then
            some ⟨req.config.selectedDocs⟩
          else none
        limit := 10
        prevNextChunks := 1 }) := by
  unfold chatHandler
  rw [if_pos h]

lemma chatHandler_basic (req : ChatRequestBody)
    (h : req.config.mode = "basic") :
    chatHandler req = ("/v1/chat/completions", .chat
      { model := "private-gpt"
        messages :=
          (if req.systemPrompt ≠ "" then [⟨"system", req.systemPrompt⟩] else [])
            ++ (if req.history.length > 4 then
                  req.history.drop (req.history.length - 4)
                else req.history)
            ++ [⟨"user", req.message⟩]
        useContext := false
        contextFilter := none
        includeSources := false
        stream := false
        maxTokens := req.config.maxTokens
        temperature := req.config.temperature }) := by
  unfold chatHandler
  rw [if_neg (by rw [h]; decide), if_pos h]
  by_cases hh : req.history.length > 4 <;> simp [hh, List.append_assoc]

lemma chatHandler_summarize (req : ChatRequestBody)
    (h : req.config.mode = "summarize") :
    chatHandler req = ("/v1/completions", .completion
      { model := "private-gpt"
        prompt := "Please provide a comprehensive summary of the following content: "
          ++ req.message
        useContext := true
        contextFilter :=
          if 0 < req.config.selectedDocs.length then
            some ⟨req.config.selectedDocs⟩
          else none
        includeSources := true
        maxTokens := req.config.maxTokens
        temperature := req.config.temperature }) := by
  unfold chatHandler
  rw [if_neg (by rw [h]; decide), if_neg (by rw [h]; decide), if_pos h]

lemma chatHandler_default (req : ChatRequestBody)
    (h1 : req.config.mode ≠ "search") (h2 : req.config.mode ≠ "basic")
    (h3 : req.config.mode ≠ "summarize") :
    chatHandler req = ("/v1/chat/completions", .chat
      { model := "private-gpt"
        messages :=
          (if req.systemPrompt ≠ "" then [⟨"system", req.systemPrompt⟩] else [])
            ++ req.history ++ [⟨"user", req.message⟩]
        useContext := req.config.useContext
        contextFilter :=
          if req.config.useContext ∧ 0 < req.config.selectedDocs.length then
            some ⟨req.config.selectedDocs⟩
          else none
        includeSources := true
        stream := false
        maxTokens := req.config.maxTokens
        temperature := req.config.temperature }) := by
  unfold chatHandler
  rw [if_neg h1, if_neg h2, if_neg h3]

/-! Claim theorems about the chat handler. -/

/-- C1: for every chat request in "basic" mode, whatever the config's
    use_context and selected_docs say, the upstream payload has
    use_context=false, include_sources=false, and no context_filter key. -/
theorem C1_basic_no_context (req : ChatRequestBody)
    (h : req.config.mode = "basic") :
    jLookup "use_context" (encodePayload (chatHandler req).2) =
      some (.jbool false) ∧
    jLookup "include_sources" (encodePayload (chatHandler req).2) =
      some (.jbool false) ∧
    jLookup "context_filter" (encodePayload (chatHandler req).2) = none := by
  rw [chatHandler_basic req h]
  refine ⟨?_, ?_, ?_⟩ <;>
    simp [encodePayload, encodeChatRequest_use_context,
      encodeChatRequest_include_sources, encodeChatRequest_context_filter]

/-- Witness for C1 at a concrete basic-mode request whose config has
    use_context=true and non-empty selected_docs. -/
theorem C1_basic_no_context_witness :
    exampleBasicReq.config.mode = "basic" ∧
    (jLookup "use_context" (encodePayload (chatHandler exampleBasicReq).2) =
       some (.jbool false) ∧
     jLookup "include_sources" (encodePayload (chatHandler exampleBasicReq).2) =
       some (.jbool false) ∧
     jLookup "context_filter" (encodePayload (chatHandler exampleBasicReq).2) =
       none) :=
  ⟨rfl, C1_basic_no_context exampleBasicReq rfl⟩

/-- C2 as stated is false: in "search" mode the constructed payload (a
    ChunksRequest) has no stream field at all, so at this concrete
    search-mode request the payload contains no stream key. -/
theorem C2_stream_counterexample :
    jLookup "stream" (encodePayload (chatHandler exampleSearchReq).2) = none ∧
    jLookup "stream" (encodePayload (chatHandler exampleSearchReq).2) ≠
      some (.jbool false) := by
  have h : jLookup "stream" (encodePayload (chatHandler exampleSearchReq).2)
      = none := rfl
  exact ⟨h, by rw [h]; exact fun hc => Option.noConfusion hc⟩

/-- C2 amended: in the two modes whose payload type has a stream field
    ("basic" and the rag/default fallback) the payload carries stream=false;
    in "search" and "summarize" the payload types have no stream field, so
    the payload contains no stream key — hence no mode ever requests
    streaming. -/
theorem C2_stream_amended (req : ChatRequestBody) :
    ((req.config.mode ≠ "search" ∧ req.config.mode ≠ "summarize") →
      jLookup "stream" (encodePayload (chatHandler req).2) =
        some (.jbool false)) ∧
    ((req.config.mode = "search" ∨ req.config.mode = "summarize") →
      jLookup "stream" (encodePayload (chatHandler req).2) = none) := by
  constructor
  · rintro ⟨hs, hz⟩
    by_cases hb : req.config.mode = "basic"
    · rw [chatHandler_basic req hb]
      simp [encodePayload, encodeChatRequest_stream]
    · rw [chatHandler_default req hs hb hz]
      simp [encodePayload, encodeChatRequest_stream]
  · rintro (hs | hz)
    · rw [chatHandler_search req hs]
      simp [encodePayload, encodeChunksRequest_stream]
    · rw [chatHandler_summarize req hz]
      simp [encodePayload, encodeCompletionRequest_stream]

/-- Witness for the amended C2: a rag-mode request gets stream=false and a
    search-mode request gets no stream key. -/
theorem C2_stream_amended_witness :
    (exampleRagReq.config.mode ≠ "search" ∧
     exampleRagReq.config.mode ≠ "summarize") ∧
    jLookup "stream" (encodePayload (chatHandler exampleRagReq).2) =
      some (.jbool false) ∧
    (exampleSearchReq.config.mode = "search" ∨
     exampleSearchReq.config.mode = "summarize") ∧
    jLookup "stream" (encodePayload (chatHandler exampleSearchReq).2) = none :=
  ⟨⟨by decide, by decide⟩,
   (C2_stream_amended exampleRagReq).1 ⟨by decide, by decide⟩,
   Or.inl rfl,
   (C2_stream_amended exampleSearchReq).2 (Or.inl rfl)⟩

/-- C3: any mode other than "search", "basic" and "summarize" (including
    "rag" and the absent mode "") gets rag semantics: optional system turn,
    then the full history unmodified, then the new user turn; use_context
    mirrors the config; include_sources is true; and the payload carries a
    context_filter key iff use_context is true and selected_docs is
    non-empty. -/
theorem C3_rag_default_semantics (req : ChatRequestBody)
    (h1 : req.config.mode ≠ "search") (h2 : req.config.mode ≠ "basic")
    (h3 : req.config.mode ≠ "summarize") :
    ∃ r : ChatRequest,
      (chatHandler req).2 = .chat r ∧
      r.messages =
        (if req.systemPrompt ≠ "" then [⟨"system", req.systemPrompt⟩] else [])
          ++ req.history ++ [⟨"user", req.message⟩] ∧
      r.useContext = req.config.useContext ∧
      r.includeSources = true ∧
      ((jLookup "context_filter" (encodePayload (chatHandler req).2)).isSome ↔
        (req.config.useContext = true ∧ req.config.selectedDocs ≠ [])) := by
  rw [chatHandler_default req h1 h2 h3]
  refine ⟨_, rfl, rfl, rfl, rfl, ?_⟩
  simp only [encodePayload, encodeChatRequest_context_filter]
  by_cases hc : req.config.useContext ∧ 0 < req.config.selectedDocs.length
  · rw [if_pos hc]
    constructor
    · intro _
      exact ⟨hc.1, List.length_pos.mp hc.2⟩
    · intro _
      rfl
  · rw [if_neg hc]
    constructor
    · intro hcontra
      simp at hcontra
    · intro hr
      exact absurd ⟨hr.1, List.length_pos.mpr hr.2⟩ hc

/-- Witness for C3 at a concrete rag-mode request with use_context=true and
    one selected doc. -/
theorem C3_rag_default_semantics_witness :
    (exampleRagReq.config.mode ≠ "search" ∧
     exampleRagReq.config.mode ≠ "basic" ∧
     exampleRagReq.config.mode ≠ "summarize") ∧
    ∃ r : ChatRequest,
      (chatHandler exampleRagReq).2 = .chat r ∧
      r.messages =
        (if exampleRagReq.systemPrompt ≠ "" then
          [⟨"system", exampleRagReq.systemPrompt⟩] else [])
          ++ exampleRagReq.history ++ [⟨"user", exampleRagReq.message⟩] ∧
      r.useContext = exampleRagReq.config.useContext ∧
      r.includeSources = true ∧
      ((jLookup "context_filter"
          (encodePayload (chatHandler exampleRagReq).2)).isSome ↔
        (exampleRagReq.config.useContext = true ∧
         exampleRagReq.config.selectedDocs ≠ [])) :=
  ⟨⟨by decide, by decide, by decide⟩,
   C3_rag_default_semantics exampleRagReq (by decide) (by decide) (by decide)⟩

/-- C4: in "basic" mode, a history longer than 4 turns is truncated to
    exactly its last 4 turns in original order (the dropped prefix plus the
    kept suffix reassemble the history), and a history of at most 4 turns is
    kept whole. -/
theorem C4_basic_history_truncation (req : ChatRequestBody)
    (h : req.config.mode = "basic") :
    ∃ r : ChatRequest,
      (chatHandler req).2 = .chat r ∧
      (req.history.length > 4 →
        r.messages =
          (if req.systemPrompt ≠ "" then [⟨"system", req.systemPrompt⟩] else [])
            ++ req.history.drop (req.history.length - 4)
            ++ [⟨"user", req.message⟩] ∧
        (req.history.drop (req.history.length - 4)).length = 4 ∧
        req.history.take (req.history.length - 4)
          ++ req.history.drop (req.history.length - 4) = req.history) ∧
      (req.history.length ≤ 4 →
        r.messages =
          (if req.systemPrompt ≠ "" then [⟨"system", req.systemPrompt⟩] else [])
            ++ req.history ++ [⟨"user", req.message⟩]) := by
  rw [chatHandler_basic req h]
  refine ⟨_, rfl, ?_, ?_⟩
  · intro hh
    refine ⟨by rw [if_pos hh], ?_, List.take_append_drop _ _⟩
    rw [List.length_drop]
    omega
  · intro hh
    rw [if_neg (show ¬(req.history.length > 4) by omega)]

/-- Witness for C4 at a concrete basic-mode request with a 5-turn history. -/
theorem C4_basic_history_truncation_witness :
    exampleBasicReq.config.mode = "basic" ∧
    ∃ r : ChatRequest,
      (chatHandler exampleBasicReq).2 = .chat r ∧
      (exampleBasicReq.history.length > 4 →
        r.messages =
          (if exampleBasicReq.systemPrompt ≠ "" then
            [⟨"system", exampleBasicReq.systemPrompt⟩] else [])
            ++ exampleBasicReq.history.drop
                 (exampleBasicReq.history.length - 4)
            ++ [⟨"user", exampleBasicReq.message⟩] ∧
        (exampleBasicReq.history.drop
           (exampleBasicReq.history.length - 4)).length = 4 ∧
        exampleBasicReq.history.take (exampleBasicReq.history.length - 4)
          ++ exampleBasicReq.history.drop
               (exampleBasicReq.history.length - 4) =
          exampleBasicReq.history) ∧
      (exampleBasicReq.history.length ≤ 4 →
        r.messages =
          (if exampleBasicReq.systemPrompt ≠ "" then
            [⟨"system", exampleBasicReq.systemPrompt⟩] else [])
            ++ exampleBasicReq.history
            ++ [⟨"user", exampleBasicReq.message⟩]) :=
  ⟨rfl, C4_basic_history_truncation exampleBasicReq rfl⟩

/-- C9: two search-mode requests agreeing on message and selected_docs
    produce identical upstream endpoint and payload, whatever their
    histories, system prompts and remaining config fields are. -/
theorem C9_search_depends_only_on_message_docs (r1 r2 : ChatRequestBody)
    (h1 : r1.config.mode = "search") (h2 : r2.config.mode = "search")
    (hm : r1.message = r2.message)
    (hd : r1.config.selectedDocs = r2.config.selectedDocs) :
    chatHandler r1 = chatHandler r2 := by
  rw [chatHandler_search r1 h1, chatHandler_search r2 h2, hm, hd]

/-- Witness for C9: two concrete search-mode requests differing in history,
    system prompt, use_context, max_tokens and temperature. -/
theorem C9_search_depends_only_on_message_docs_witness :
    (exampleSearchReq.config.mode = "search" ∧
     exampleSearchReq2.config.mode = "search" ∧
     exampleSearchReq.message = exampleSearchReq2.message ∧
     exampleSearchReq.config.selectedDocs =
       exampleSearchReq2.config.selectedDocs ∧
     exampleSearchReq.history ≠ exampleSearchReq2.history ∧
     exampleSearchReq.systemPrompt ≠ exampleSearchReq2.systemPrompt) ∧
    chatHandler exampleSearchReq = chatHandler exampleSearchReq2 :=
  ⟨⟨rfl, rfl, rfl, rfl, by decide, by decide⟩,
   C9_search_depends_only_on_message_docs exampleSearchReq exampleSearchReq2
     rfl rfl rfl rfl⟩

/-! The delete-all loop: closed form for counters, failed list and calls. -/

lemma deleteLoop_foldl (l : List (FileInfo × DeleteOutcome))
    (s : DeleteLoopState) :
    l.foldl deleteLoopStep s =
      ⟨s.deletedCount + l.countP (fun p => isDeleteSuccess p.2),
       s.failedCount + l.countP (fun p => isDeleteFailure p.2),
       s.failedFiles ++ (l.filter (fun p => isDeleteFailure p.2)).map
         (fun p => fileDisplayName p.1),
       s.deleteCalls + l.countP (fun p => issuesDeleteCall p.2)⟩ := by
  induction l generalizing s with
  | nil => simp
  | cons p rest ih =>
    obtain ⟨file, outcome⟩ := p
    rw [List.foldl_cons, ih]
    cases outcome with
    | reqError =>
      simp only [deleteLoopStep, List.countP_cons, List.filter_cons,
        isDeleteSuccess, isDeleteFailure, issuesDeleteCall,
        DeleteLoopState.mk.injEq]
      refine ⟨by simp, by simp; omega, by simp, by simp⟩
    | netError =>
      simp only [deleteLoopStep, List.countP_cons, List.filter_cons,
        isDeleteSuccess, isDeleteFailure, issuesDeleteCall,
        DeleteLoopState.mk.injEq]
      refine ⟨by simp, by simp; omega, by simp, by simp; omega⟩
    | status code =>
      by_cases hcode : code = 200
      · simp only [deleteLoopStep, if_pos hcode, List.countP_cons,
          List.filter_cons, isDeleteSuccess, isDeleteFailure, issuesDeleteCall,
          hcode, DeleteLoopState.mk.injEq]
        refine ⟨by simp; omega, by simp, by simp, by simp; omega⟩
      · simp only [deleteLoopStep, if_neg hcode, List.countP_cons,
          List.filter_cons, isDeleteSuccess, isDeleteFailure, issuesDeleteCall,
          DeleteLoopState.mk.injEq]
        refine ⟨by simp [hcode], by simp [hcode]; omega, by simp [hcode],
          by simp; omega⟩

lemma deleteAllLoop_spec (files : List FileInfo)
    (outcomes : List DeleteOutcome) :
    deleteAllLoop files outcomes =
      ⟨(files.zip outcomes).countP (fun p => isDeleteSuccess p.2),
       (files.zip outcomes).countP (fun p => isDeleteFailure p.2),
       ((files.zip outcomes).filter (fun p => isDeleteFailure p.2)).map
         (fun p => fileDisplayName p.1),
       (files.zip outcomes).countP (fun p => issuesDeleteCall p.2)⟩ := by
  unfold deleteAllLoop
  rw [deleteLoop_foldl]
  simp

lemma deleteAllFilesRun_nonempty (files : List FileInfo)
    (outcomes : List DeleteOutcome) (hne : files ≠ []) :
    jLookup "success" (deleteAllFilesRun files outcomes).1 =
      some (.jbool true) ∧
    jLookup "total_files" (deleteAllFilesRun files outcomes).1 =
      some (.jnum files.length) ∧
    jLookup "deleted_count" (deleteAllFilesRun files outcomes).1 =
      some (.jnum ((files.zip outcomes).countP
        (fun p => isDeleteSuccess p.2))) ∧
    jLookup "failed_count" (deleteAllFilesRun files outcomes).1 =
      some (.jnum ((files.zip outcomes).countP
        (fun p => isDeleteFailure p.2))) ∧
    jLookup "failed_files" (deleteAllFilesRun files outcomes).1 =
      (if ((files.zip outcomes).filter (fun p => isDeleteFailure p.2)) = []
       then none
       else some (.jarr (((files.zip outcomes).filter
         (fun p => isDeleteFailure p.2)).map
           (fun p => .jstr (fileDisplayName p.1))))) ∧
    (deleteAllFilesRun files outcomes).2 =
      (files.zip outcomes).countP (fun p => issuesDeleteCall p.2) := by
  unfold deleteAllFilesRun
  rw [if_neg (by simpa using hne), deleteAllLoop_spec]
  by_cases hf : ((files.zip outcomes).filter (fun p => isDeleteFailure p.2)) = []
  · rw [if_pos hf]
    simp [hf, jLookup, objLookup]
  · rw [if_neg hf]
    have hlen : 0 < (((files.zip outcomes).filter
        (fun p => isDeleteFailure p.2)).map (fun p => fileDisplayName p.1)).length := by
      simp [List.length_pos, hf]
    rw [if_pos hlen]
    simp [jLookup, objLookup, List.map_map, Function.comp_def]

lemma isDeleteFailure_eq_not (o : DeleteOutcome) :
    isDeleteFailure o = !isDeleteSuccess o := by
  cases o with
  | reqError => rfl
  | netError => rfl
  | status code => simp [isDeleteSuccess, isDeleteFailure, decide_not]

lemma countP_succ_add_fail (l : List (FileInfo × DeleteOutcome)) :
    l.countP (fun p => isDeleteSuccess p.2)
      + l.countP (fun p => isDeleteFailure p.2) = l.length := by
  have h := List.length_eq_countP_add_countP
    (p := fun p : FileInfo × DeleteOutcome => isDeleteSuccess p.2) (l := l)
  rw [h]
  congr 1
  apply List.countP_congr
  intro x _
  rw [isDeleteFailure_eq_not]
  simp

/-! Claim theorems about the delete-all handler. -/

/-- C6 as stated is false: the empty-list early return of
    `deleteAllFilesHandler` carries no total_files key at all (it only has
    success, message, deleted_count and failed_count). -/
theorem C6_counterexample :
    jLookup "total_files" (deleteAllFilesRun [] []).1 = none ∧
    jLookup "total_files" (deleteAllFilesRun [] []).1 ≠ some (.jnum 0) := by
  refine ⟨rfl, ?_⟩
  intro hc
  rw [show jLookup "total_files" (deleteAllFilesRun [] []).1 = none from rfl]
    at hc
  exact Option.noConfusion hc

/-- C6 amended: delete-all on an empty upstream list returns a success
    response with deleted_count 0 and failed_count 0, carries no total_files
    key, and issues no delete call. -/
theorem C6_empty_list_amended :
    jLookup "success" (deleteAllFilesRun [] []).1 = some (.jbool true) ∧
    jLookup "deleted_count" (deleteAllFilesRun [] []).1 = some (.jnum 0) ∧
    jLookup "failed_count" (deleteAllFilesRun [] []).1 = some (.jnum 0) ∧
    jLookup "total_files" (deleteAllFilesRun [] []).1 = none ∧
    (deleteAllFilesRun [] []).2 = 0 :=
  ⟨rfl, rfl, rfl, rfl, rfl⟩

/-- C7: on a non-empty upstream list, every failing per-file outcome (request
    construction error, network error, or non-200 status) is counted in
    failed_count and contributes its display filename (or "Unknown") to
    failed_files in loop order, every 200 outcome is counted in
    deleted_count, and the response always reports outer success=true with
    total_files equal to the list length — for any pattern of outcomes. -/
theorem C7_partial_failures_tolerated (files : List FileInfo)
    (outcomes : List DeleteOutcome) (hne : files ≠ [])
    (hlen : outcomes.length = files.length) :
    jLookup "success" (deleteAllFilesRun files outcomes).1 =
      some (.jbool true) ∧
    jLookup "total_files" (deleteAllFilesRun files outcomes).1 =
      some (.jnum files.length) ∧
    jLookup "deleted_count" (deleteAllFilesRun files outcomes).1 =
      some (.jnum ((files.zip outcomes).countP
        (fun p => isDeleteSuccess p.2))) ∧
    jLookup "failed_count" (deleteAllFilesRun files outcomes).1 =
      some (.jnum ((files.zip outcomes).countP
        (fun p => isDeleteFailure p.2))) ∧
    jLookup "failed_files" (deleteAllFilesRun files outcomes).1 =
      (if ((files.zip outcomes).filter (fun p => isDeleteFailure p.2)) = []
       then none
       else some (.jarr (((files.zip outcomes).filter
         (fun p => isDeleteFailure p.2)).map
           (fun p => .jstr (fileDisplayName p.1))))) := by
  obtain ⟨h1, h2, h3, h4, h5, _⟩ := deleteAllFilesRun_nonempty files outcomes hne
  exact ⟨h1, h2, h3, h4, h5⟩

/-- Witness for C7: five files of which two deletes fail (one 404, one
    network error) yield deleted_count 3, failed_count 2, both display
    filenames listed in order, outer success and total_files 5. -/
theorem C7_partial_failures_tolerated_witness :
    (exampleFiles ≠ [] ∧ exampleOutcomes.length = exampleFiles.length ∧
     (exampleFiles.zip exampleOutcomes).countP
       (fun p => isDeleteSuccess p.2) = 3 ∧
     (exampleFiles.zip exampleOutcomes).countP
       (fun p => isDeleteFailure p.2) = 2 ∧
     ((exampleFiles.zip exampleOutcomes).filter
       (fun p => isDeleteFailure p.2)).map (fun p => fileDisplayName p.1) =
       ["two", "four"] ∧
     exampleFiles.length = 5) ∧
    (jLookup "success" (deleteAllFilesRun exampleFiles exampleOutcomes).1 =
       some (.jbool true) ∧
     jLookup "total_files" (deleteAllFilesRun exampleFiles exampleOutcomes).1 =
       some (.jnum exampleFiles.length) ∧
     jLookup "deleted_count"
         (deleteAllFilesRun exampleFiles exampleOutcomes).1 =
       some (.jnum ((exampleFiles.zip exampleOutcomes).countP
         (fun p => isDeleteSuccess p.2))) ∧
     jLookup "failed_count"
         (deleteAllFilesRun exampleFiles exampleOutcomes).1 =
       some (.jnum ((exampleFiles.zip exampleOutcomes).countP
         (fun p => isDeleteFailure p.2))) ∧
     jLookup "failed_files"
         (deleteAllFilesRun exampleFiles exampleOutcomes).1 =
       (if ((exampleFiles.zip exampleOutcomes).filter
           (fun p => isDeleteFailure p.2)) = []
        then none
        else some (.jarr (((exampleFiles.zip exampleOutcomes).filter
          (fun p => isDeleteFailure p.2)).map
            (fun p => .jstr (fileDisplayName p.1)))))) :=
  ⟨⟨by decide, by decide, by decide, by decide, by decide, by decide⟩,
   C7_partial_failures_tolerated exampleFiles exampleOutcomes
     (by decide) (by decide)⟩

/-- C10: on a non-empty list with one outcome per record, each record lands
    in exactly one counter: deleted_count + failed_count = total list length
    = the reported total_files, and the failed-files list has exactly
    failed_count entries. -/
theorem C10_counts_partition (files : List FileInfo)
    (outcomes : List DeleteOutcome) (hne : files ≠ [])
    (hlen : outcomes.length = files.length) :
    ∃ d f : Nat,
      jLookup "deleted_count" (deleteAllFilesRun files outcomes).1 =
        some (.jnum d) ∧
      jLookup "failed_count" (deleteAllFilesRun files outcomes).1 =
        some (.jnum f) ∧
      d + f = files.length ∧
      jLookup "total_files" (deleteAllFilesRun files outcomes).1 =
        some (.jnum files.length) ∧
      (deleteAllLoop files outcomes).failedFiles.length = f := by
  obtain ⟨h1, h2, h3, h4, h5, _⟩ := deleteAllFilesRun_nonempty files outcomes hne
  refine ⟨_, _, h3, h4, ?_, h2, ?_⟩
  · have hcount := countP_succ_add_fail (files.zip outcomes)
    rwa [List.length_zip, hlen, Nat.min_self] at hcount
  · rw [deleteAllLoop_spec]
    simp [List.countP_eq_length_filter]

/-- Witness for C10: with the 3-success/2-failure outcome pattern on five
    files the counters partition the list. -/
theorem C10_counts_partition_witness :
    (exampleFiles ≠ [] ∧ exampleOutcomes.length = exampleFiles.length) ∧
    ∃ d f : Nat,
      jLookup "deleted_count"
          (deleteAllFilesRun exampleFiles exampleOutcomes).1 =
        some (.jnum d) ∧
      jLookup "failed_count"
          (deleteAllFilesRun exampleFiles exampleOutcomes).1 =
        some (.jnum f) ∧
      d + f = exampleFiles.length ∧
      jLookup "total_files"
          (deleteAllFilesRun exampleFiles exampleOutcomes).1 =
        some (.jnum exampleFiles.length) ∧
      (deleteAllLoop exampleFiles exampleOutcomes).failedFiles.length = f :=
  ⟨⟨by decide, by decide⟩,
   C10_counts_partition exampleFiles exampleOutcomes (by decide) (by decide)⟩

/-! The dedup map of `listFilesHandler`. -/

lemma alistFind_insert_self (k : String) (v : FileInfo)
    (m : List (String × FileInfo)) :
    alistFind k (alistInsert k v m) = some v := by
  induction m with
  | nil => simp [alistInsert, alistFind]
  | cons p rest ih =>
    obtain ⟨k', v'⟩ := p
    by_cases hk : k' = k
    · simp [alistInsert, alistFind, hk]
    · simp [alistInsert, alistFind, hk, ih]

lemma alistFind_insert_ne (k k' : String) (hk : k' ≠ k) (v : FileInfo)
    (m : List (String × FileInfo)) :
    alistFind k (alistInsert k' v m) = alistFind k m := by
  induction m with
  | nil => simp [alistInsert, alistFind, hk]
  | cons p rest ih =>
    obtain ⟨k'', v''⟩ := p
    by_cases hk2 : k'' = k'
    · subst hk2
      simp [alistInsert, alistFind, hk]
    · simp [alistInsert, alistFind, hk2, ih]

lemma alistFind_dedupStep (m : List (String × FileInfo)) (file : FileInfo)
    (k : String) :
    alistFind k (dedupStep m file) = bestForStep k (alistFind k m) file := by
  unfold dedupStep bestForStep
  by_cases hkf : fileDisplayName file = k
  · subst hkf
    cases h : alistFind (fileDisplayName file) m with
    | none => simp [h, alistFind_insert_self]
    | some e =>
      by_cases hd : e.docID < file.docID
      · simp [h, hd, alistFind_insert_self]
      · simp [h, hd]
  · cases h : alistFind (fileDisplayName file) m with
    | none => simp [h, hkf, alistFind_insert_ne _ _ hkf]
    | some e =>
      by_cases hd : e.docID < file.docID
      · simp [h, hd, hkf, alistFind_insert_ne _ _ hkf]
      · simp [h, hd, hkf]

lemma alistFind_dedup_foldl (l : List FileInfo)
    (m : List (String × FileInfo)) (k : String) :
    alistFind k (l.foldl dedupStep m) =
      l.foldl (bestForStep k) (alistFind k m) := by
  induction l generalizing m with
  | nil => rfl
  | cons x rest ih =>
    rw [List.foldl_cons, List.foldl_cons, ih, alistFind_dedupStep]

lemma dedupFiles_find (l : List FileInfo) (k : String) :
    alistFind k (dedupFiles l) = bestFor k l := by
  unfold dedupFiles bestFor
  rw [alistFind_dedup_foldl]
  rfl

lemma bestFold_mem (k : String) (l : List FileInfo) (acc : Option FileInfo)
    (f : FileInfo) (h : l.foldl (bestForStep k) acc = some f) :
    acc = some f ∨ (f ∈ l ∧ fileDisplayName f = k) := by
  induction l generalizing acc with
  | nil => exact Or.inl h
  | cons x rest ih =>
    rw [List.foldl_cons] at h
    rcases ih _ h with hstep | hmem
    · by_cases hkx : fileDisplayName x = k
      · rcases acc with _ | e
        · right
          have hx : x = f := by simpa [bestForStep, hkx] using hstep
          exact ⟨hx ▸ List.mem_cons_self _ _, hx ▸ hkx⟩
        · by_cases hd : e.docID < x.docID
          · right
            have hx : x = f := by simpa [bestForStep, hkx, hd] using hstep
            exact ⟨hx ▸ List.mem_cons_self _ _, hx ▸ hkx⟩
          · left
            simpa [bestForStep, hkx, hd] using hstep
      · left
        simpa [bestForStep, hkx] using hstep
    · exact Or.inr ⟨List.mem_cons_of_mem _ hmem.1, hmem.2⟩

lemma bestFold_max (k : String) (l : List FileInfo) (acc : Option FileInfo)
    (f : FileInfo) (h : l.foldl (bestForStep k) acc = some f) :
    (∀ g ∈ l, fileDisplayName g = k → g.docID ≤ f.docID) ∧
    (∀ e, acc = some e → e.docID ≤ f.docID) := by
  induction l generalizing acc with
  | nil =>
    refine ⟨fun g hg => absurd hg (List.not_mem_nil g), ?_⟩
    intro e he
    rw [he] at h
    cases h
    exact le_refl _
  | cons x rest ih =>
    rw [List.foldl_cons] at h
    obtain ⟨hrest, hacc⟩ := ih _ h
    constructor
    · intro g hg hgk
      rcases List.mem_cons.mp hg with hgx | hgrest
      · subst hgx
        rcases acc with _ | e
        · exact hacc g (by simp [bestForStep, hgk])
        · by_cases hd : e.docID < g.docID
          · exact hacc g (by simp [bestForStep, hgk, hd])
          · exact le_trans (not_lt.mp hd)
              (hacc e (by simp [bestForStep, hgk, hd]))
      · exact hrest g hgrest hgk
    · intro e he
      subst he
      by_cases hkx : fileDisplayName x = k
      · by_cases hd : e.docID < x.docID
        · exact le_trans (le_of_lt hd)
            (hacc x (by simp [bestForStep, hkx, hd]))
        · exact hacc e (by simp [bestForStep, hkx, hd])
      · exact hacc e (by simp [bestForStep, hkx])

lemma bestFold_isSome (k : String) (l : List FileInfo)
    (acc : Option FileInfo) :
    (l.foldl (bestForStep k) acc).isSome = true ↔
      acc.isSome = true ∨ ∃ g ∈ l, fileDisplayName g = k := by
  induction l generalizing acc with
  | nil => simp
  | cons x rest ih =>
    rw [List.foldl_cons, ih]
    constructor
    · rintro (hstep | ⟨g, hg, hgk⟩)
      · by_cases hkx : fileDisplayName x = k
        · exact Or.inr ⟨x, List.mem_cons_self _ _, hkx⟩
        · left
          rwa [show bestForStep k acc x = acc by simp [bestForStep, hkx]]
            at hstep
      · exact Or.inr ⟨g, List.mem_cons_of_mem _ hg, hgk⟩
    · rintro (hacc | ⟨g, hg, hgk⟩)
      · left
        rcases acc with _ | e
        · simp at hacc
        · by_cases hkx : fileDisplayName x = k <;>
            by_cases hd : e.docID < x.docID <;>
              simp [bestForStep, hkx, hd]
      · rcases List.mem_cons.mp hg with hgx | hgrest
        · subst hgx
          left
          rcases acc with _ | e
          · simp [bestForStep, hgk]
          · by_cases hd : e.docID < g.docID <;>
              simp [bestForStep, hgk, hd]
        · exact Or.inr ⟨g, hgrest, hgk⟩

lemma bestFor_character (l : List FileInfo) (k : String) (f : FileInfo)
    (hinj : ∀ g ∈ l, ∀ g' ∈ l, fileDisplayName g = fileDisplayName g' →
      g.docID = g'.docID → g = g') :
    bestFor k l = some f ↔
      (f ∈ l ∧ fileDisplayName f = k ∧
       ∀ g ∈ l, fileDisplayName g = k → g.docID ≤ f.docID) := by
  constructor
  · intro h
    rcases bestFold_mem k l none f h with hacc | ⟨hmem, hkey⟩
    · exact absurd hacc (by simp)
    · exact ⟨hmem, hkey, (bestFold_max k l none f h).1⟩
  · rintro ⟨hmem, hkey, hmax⟩
    have hsome : (bestFor k l).isSome = true := by
      rw [bestFor, bestFold_isSome]
      exact Or.inr ⟨f, hmem, hkey⟩
    obtain ⟨f', hf'⟩ := Option.isSome_iff_exists.mp hsome
    have hf'eq : bestFor k l = some f' := hf'
    rcases bestFold_mem k l none f' hf'eq with hacc | ⟨hmem', hkey'⟩
    · exact absurd hacc (by simp)
    · have h1 : f'.docID ≤ f.docID := hmax f' hmem' hkey'
      have h2 : f.docID ≤ f'.docID :=
        (bestFold_max k l none f' hf'eq).1 f hmem hkey
      have hff : f = f' :=
        hinj f hmem f' hmem' (hkey.trans hkey'.symm) (le_antisymm h2 h1)
      rw [hf'eq, hff]

/-! Claim theorems about deduplication and upload validation. -/

/-- C5: the dedup view of `listFilesHandler` keys records by display
    filename ("Unknown" when metadata is missing, so such records share one
    slot); a slot is occupied iff some record has that key; the retained
    record belongs to the input, carries that key, and has the maximal
    doc_id among records with that key; and (given that records sharing a
    filename have distinct doc_ids, as doc_ids are identifiers) the slot's
    content is independent of the order of the input list. -/
theorem C5_dedup_keeps_max_docid (l l' : List FileInfo) (k : String)
    (hinj : ∀ g ∈ l, ∀ g' ∈ l, fileDisplayName g = fileDisplayName g' →
      g.docID = g'.docID → g = g')
    (hperm : l.Perm l') :
    (∀ f, alistFind k (dedupFiles l) = some f →
      f ∈ l ∧ fileDisplayName f = k ∧
      ∀ g ∈ l, fileDisplayName g = k → g.docID ≤ f.docID) ∧
    ((alistFind k (dedupFiles l)).isSome = true ↔
      ∃ g ∈ l, fileDisplayName g = k) ∧
    alistFind k (dedupFiles l) = alistFind k (dedupFiles l') := by
  have hinj' : ∀ g ∈ l', ∀ g' ∈ l', fileDisplayName g = fileDisplayName g' →
      g.docID = g'.docID → g = g' := fun g hg g' hg' h1 h2 =>
    hinj g (hperm.mem_iff.mpr hg) g' (hperm.mem_iff.mpr hg') h1 h2
  refine ⟨?_, ?_, ?_⟩
  · intro f h
    rw [dedupFiles_find] at h
    rcases bestFold_mem k l none f h with hacc | ⟨hmem, hkey⟩
    · exact absurd hacc (by simp)
    · exact ⟨hmem, hkey, (bestFold_max k l none f h).1⟩
  · rw [dedupFiles_find, bestFor, bestFold_isSome]
    simp
  · rw [dedupFiles_find, dedupFiles_find]
    cases h : bestFor k l with
    | none =>
      have hno : ¬ ∃ g ∈ l, fileDisplayName g = k := by
        intro hex
        have hsome : (bestFor k l).isSome = true := by
          rw [bestFor, bestFold_isSome]
          exact Or.inr hex
        rw [h] at hsome
        exact Bool.noConfusion hsome
      cases h' : bestFor k l' with
      | none => rfl
      | some f' =>
        rcases bestFold_mem k l' none f' h' with hacc | ⟨hmem', hkey'⟩
        · exact absurd hacc (by simp)
        · exact absurd ⟨f', hperm.mem_iff.mpr hmem', hkey'⟩ hno
    | some f =>
      have hchar := (bestFor_character l k f hinj).mp h
      have hchar' : f ∈ l' ∧ fileDisplayName f = k ∧
          ∀ g ∈ l', fileDisplayName g = k → g.docID ≤ f.docID :=
        ⟨hperm.mem_iff.mp hchar.1, hchar.2.1,
         fun g hg hgk => hchar.2.2 g (hperm.mem_iff.mpr hg) hgk⟩
      rw [(bestFor_character l' k f hinj').mpr hchar']

/-- Witness for C5: two records with filename "x" and doc_ids "a" < "b";
    in either input order the slot "x" retains the record with doc_id "b". -/
theorem C5_dedup_keeps_max_docid_witness :
    ((∀ g ∈ [exampleFileA, exampleFileB],
        ∀ g' ∈ [exampleFileA, exampleFileB],
        fileDisplayName g = fileDisplayName g' →
        g.docID = g'.docID → g = g') ∧
     List.Perm [exampleFileA, exampleFileB] [exampleFileB, exampleFileA]) ∧
    alistFind "x" (dedupFiles [exampleFileA, exampleFileB]) =
      alistFind "x" (dedupFiles [exampleFileB, exampleFileA]) ∧
    alistFind "x" (dedupFiles [exampleFileA, exampleFileB]) =
      some exampleFileB :=
  ⟨⟨by decide, List.Perm.swap exampleFileB exampleFileA []⟩,
   (C5_dedup_keeps_max_docid [exampleFileA, exampleFileB]
      [exampleFileB, exampleFileA] "x" (by decide)
      (List.Perm.swap exampleFileB exampleFileA [])).2.2,
   by
    have hab : ("a" : String) < "b" := by
      rw [String.lt_iff_toList_lt]
      decide
    simp [dedupFiles, dedupStep, alistFind, alistInsert, fileDisplayName,
      lookupMeta, exampleFileA, exampleFileB, hab]⟩

/-- C8: the extension half of the claim holds — a POST upload of
    "malware.exe" is answered 400 "File type not supported" with no upstream
    call — but the size half does not: the 50 MiB constant is only the
    memory threshold handed to multipart parsing, the parsed size is never
    compared against it, so a well-formed 60 MiB .pdf upload is forwarded
    upstream rather than rejected. -/
theorem C8_upload_validation :
    uploadHandler exampleExeUpload =
      (.badRequest "File type not supported", false) ∧
    MAX_FILE_SIZE < exampleBigUpload.headerSize ∧
    uploadHandler exampleBigUpload = (.forwarded, true) :=
  ⟨rfl, by decide, rfl⟩
